import Mathlib

/-!
Shallow embedding of the contact-intake backends in this repository:
the first Flask app (health check plus a commented-out contact-form
handler writing to DynamoDB), the second simplified Flask app (static
pages and a contact-form handler that only prints), and the Cognito
pre-signup Lambda (email-domain allow-list).
-/

/-- An HTTP form body: ordered key/value pairs, as in Flask's request.form. -/
abbrev Form := List (String × String)

/-- First-match lookup, the semantics of MultiDict access in Werkzeug:
both request.form[key] and request.form.get(key) read the first value
bound to the key, when one is present. -/
def lookupForm : Form → String → Option String
  | [], _ => none
  | (k, v) :: rest, key => if k = key then some v else lookupForm rest key

/-- A response body: plain text, or a JSON object of string fields
(jsonify with string values). -/
inductive Body where
  | text (s : String)
  | json (fields : List (String × String))
  deriving DecidableEq, Repr

/-- An HTTP response: status code, body, extra headers. -/
structure Response where
  status : Nat
  body : Body
  headers : List (String × String)
  deriving DecidableEq, Repr

/-- Result of running a route: a returned response, or an HTTP error
raised inside the handler; httpError 400 k models Werkzeug's
BadRequestKeyError raised by request.form[k] when key k is absent,
which carries the key k and maps to HTTP status 400. -/
inductive RouteResult where
  | ok (r : Response)
  | httpError (status : Nat) (key : String)
  deriving DecidableEq, Repr

/-- The HTTP status that reaches the client for a route result. -/
def RouteResult.status : RouteResult → Nat
  | .ok r => r.status
  | .httpError s _ => s

/-! ## Second Flask app (second-attempt-s3-web-app/backend/app.py) -/

/-- Route GET / of the second app: returns a fixed string. -/
def index : Response :=
  { status := 200, body := .text "Welcome to Connecting The Dots!", headers := [] }

/-- Route GET /contact of the second app: returns a fixed string. -/
def contact : Response :=
  { status := 200, body := .text "Contact Page", headers := [] }

/-- Route GET /dashboard of the second app: returns a fixed string. -/
def dashboard : Response :=
  { status := 200, body := .text "Dashboard Page", headers := [] }

/-- The page names served by the static routes of the second app. -/
inductive PageName where
  | index
  | contact
  | dashboard
  deriving DecidableEq, Repr

/-- GetStaticPage dispatches a page name to its fixed route response. -/
def GetStaticPage : PageName → Response
  | .index => index
  | .contact => contact
  | .dashboard => dashboard

/-- A contact submission as read by the second app's handler. -/
structure ContactSubmission where
  first_name : String
  last_name : String
  email : String
  message : String
  deriving DecidableEq, Repr

/-- The static routes of the second app read no state: serving a page
leaves any storage contents unchanged. -/
def static_route (p : PageName) (store : List ContactSubmission) :
    Response × List ContactSubmission :=
  (GetStaticPage p, store)

/-- The observable outcome of one POST /submit_contact request in the
second app: the route result, the lines printed to the console, and the
submissions passed to Storage.Put during the request. -/
structure SubmitOutcome where
  result : RouteResult
  printed : List String
  stored : List ContactSubmission
  deriving DecidableEq, Repr

/-- The success payload returned by the second app's handler. -/
def successBody : Body :=
  .json [("status", "success"), ("message", "Form submitted successfully!")]

/-- POST /submit_contact of the second app: reads first_name, last_name,
email and message with bracket access (each absent key raises
BadRequestKeyError for that key), prints the submission to the console,
and returns the success payload; no read is validated for emptiness and
nothing is ever passed to storage. -/
def submit_contact (form : Form) : SubmitOutcome :=
  match lookupForm form "first_name" with
  | none => ⟨.httpError 400 "first_name", [], []⟩
  | some first_name =>
    match lookupForm form "last_name" with
    | none => ⟨.httpError 400 "last_name", [], []⟩
    | some last_name =>
      match lookupForm form "email" with
      | none => ⟨.httpError 400 "email", [], []⟩
      | some email =>
        match lookupForm form "message" with
        | none => ⟨.httpError 400 "message", [], []⟩
        | some message =>
          ⟨.ok { status := 200, body := successBody, headers := [] },
           [s!"Received contact form: {first_name} {last_name}, {email}, {message}"],
           []⟩

/-! ## First Flask app (first-attempt-flask-web-app/backend/app.py) -/

/-- An item as built for table.put_item by the first app's handler:
the three validated fields are strings, the optional ones keep their
possibly-absent form values. -/
structure DynamoItem where
  email : String
  first_name : String
  last_name : String
  job_title : Option String
  phone_number : Option String
  company : Option String
  deriving DecidableEq, Repr

/-- Route GET /ping of the first app: fixed JSON body and CORS headers. -/
def ping : Response :=
  { status := 200,
    body := .json [("status", "alive")],
    headers := [("Access-Control-Allow-Origin", "*"),
                ("Access-Control-Allow-Methods", "GET, POST, OPTIONS"),
                ("Access-Control-Allow-Headers", "Content-Type")] }

/-- The /ping route reads no state: serving it leaves any storage
contents unchanged. -/
def ping_route (store : List DynamoItem) : Response × List DynamoItem :=
  (ping, store)

/-- Python truthiness of request.form.get's result: None and the empty
string are falsy. -/
def falsy : Option String → Bool
  | none => true
  | some s => s = ""

/-- The item the first app's handler passes to table.put_item, built
from the form (after validation the three required values are known to
be present, so getD is never reached with its default). -/
def v1Item (form : Form) : DynamoItem :=
  { email := (lookupForm form "email").getD "",
    first_name := (lookupForm form "first_name").getD "",
    last_name := (lookupForm form "last_name").getD "",
    job_title := lookupForm form "job_title",
    phone_number := lookupForm form "phone_number",
    company := lookupForm form "company" }

/-- POST /submit_contact of the first app (the commented-out handler):
reads fields with .get, rejects with a 400 JSON error when first_name,
last_name or email is missing or empty (Python truthiness), otherwise
calls the storage collaborator once with the built item; on success it
redirects to /contact, and the except branch turns a storage failure e
into a 500 JSON body carrying str(e). -/
def submit_contact_v1 (form : Form) (put : DynamoItem → Except String Unit) : Response :=
  if falsy (lookupForm form "first_name") || falsy (lookupForm form "last_name") ||
      falsy (lookupForm form "email") then
    { status := 400, body := .json [("error", "Required fields are missing")], headers := [] }
  else
    match put (v1Item form) with
    | .ok _ => { status := 302, body := .text "", headers := [("Location", "/contact")] }
    | .error e => { status := 500, body := .json [("error", e)], headers := [] }

/-! ## Cognito pre-signup Lambda (first-attempt-flask-web-app/backend/pre-signup.py) -/

/-- Python's single-character str.split, accumulator form: splits at
every occurrence of sep, keeping empty pieces, and always returns at
least one piece. -/
def pySplitAux (sep : Char) : List Char → List Char → List (List Char)
  | [], acc => [acc.reverse]
  | c :: cs, acc =>
    if c = sep then acc.reverse :: pySplitAux sep cs []
    else pySplitAux sep cs (c :: acc)

/-- Python's email.split(sep) for a one-character separator. -/
def pySplit (sep : Char) (s : String) : List String :=
  (pySplitAux sep s.toList []).map fun cs => String.mk cs

/-- The pre-signup event: the email user attribute the handler reads,
the remaining user attributes, and the rest of the event payload. -/
structure CognitoEvent where
  email : String
  otherUserAttributes : List (String × String)
  rest : List (String × String)
  deriving DecidableEq, Repr

/-- Outcome of the pre-signup handler: the event returned to continue
sign-up, the raised domain rejection, or the IndexError raised by
email.split('@')[1] when the email has no '@'. -/
inductive PreSignupResult where
  | ok (event : CognitoEvent)
  | domainRejected (msg : String)
  | indexError (msg : String)
  deriving DecidableEq, Repr

/-- The fixed allow-list of email domains in the pre-signup handler. -/
def allowed_domains : List String := ["example.com", "connectingthedots.com"]

/-- email.split('@')[1] as a total function: the piece at index 1, when
it exists. -/
def emailDomain (email : String) : Option String :=
  (pySplit '@' email).get? 1

/-- The pre-signup lambda_handler: extracts the domain with
email.split('@')[1] (IndexError when the email holds no '@'), raises
when the domain is not allow-listed, and otherwise returns the incoming
event unchanged. -/
def lambda_handler (event : CognitoEvent) : PreSignupResult :=
  match emailDomain event.email with
  | none => .indexError "list index out of range"
  | some domain =>
    if domain ∈ allowed_domains then .ok event
    else .domainRejected
      "Invalid email domain. Only @example.com and @connectingthedots.com are allowed."

/-- IsAllowedDomain, the identity pre-check of the spec, realised by the
handler: an email passes when the handler lets its event continue. -/
def IsAllowedDomain (email : String) : Bool :=
  match lambda_handler { email := email, otherUserAttributes := [], rest := [] } with
  | .ok _ => true
  | _ => false

/-! ## Theorems -/

/-- C5: GET /ping returns status 200 with JSON body status alive and the
header Access-Control-Allow-Origin *, and leaves any storage state
untouched, whatever that state is (so in particular whatever prior
calls happened). -/
theorem ping_alive (store : List DynamoItem) :
    (ping_route store).1.status = 200 ∧
    (ping_route store).1.body = .json [("status", "alive")] ∧
    ("Access-Control-Allow-Origin", "*") ∈ (ping_route store).1.headers ∧
    (ping_route store).2 = store :=
  ⟨rfl, rfl, by simp [ping_route, ping], rfl⟩

/-- C6: the static routes return fixed constant strings per page name —
the welcome text for /, Contact Page for /contact, Dashboard Page for
/dashboard — independent of any storage state or prior requests. -/
theorem static_pages_constant (p : PageName) (store : List ContactSubmission) :
    GetStaticPage .index = { status := 200, body := .text "Welcome to Connecting The Dots!", headers := [] } ∧
    GetStaticPage .contact = { status := 200, body := .text "Contact Page", headers := [] } ∧
    GetStaticPage .dashboard = { status := 200, body := .text "Dashboard Page", headers := [] } ∧
    static_route p store = (GetStaticPage p, store) :=
  ⟨rfl, rfl, rfl, rfl⟩

/-- The concrete scenario of the spec with an empty first_name, the
message key supplied. -/
def c1Form : Form :=
  [("first_name", ""), ("last_name", "Lovelace"),
   ("email", "ada@example.com"), ("message", "hello")]

/-- C1 counterexample: a submission whose first_name is the empty string
is not rejected — the handler returns status 200, the success result,
not a 400-class response naming first_name. -/
theorem submit_contact_accepts_empty_first_name :
    lookupForm c1Form "first_name" = some "" ∧
    (submit_contact c1Form).result.status = 200 ∧
    (submit_contact c1Form).stored = [] := by decide

/-- C1 amended: when one of the keys first_name, last_name or email is
absent from the form, the handler stops at the first absent key, raises
the 400 key error carrying that key, and passes nothing to storage;
but a key that is present with an empty value is not rejected: the
empty-first_name scenario returns status 200. -/
theorem submit_contact_missing_required_key (form : Form)
    (h : lookupForm form "first_name" = none ∨ lookupForm form "last_name" = none ∨
         lookupForm form "email" = none) :
    (∃ k, lookupForm form k = none ∧
        submit_contact form = ⟨.httpError 400 k, [], []⟩) ∧
    (submit_contact c1Form).result.status = 200 := by
  refine ⟨?_, by decide⟩
  cases hfn : lookupForm form "first_name" with
  | none => exact ⟨"first_name", hfn, by simp [submit_contact, hfn]⟩
  | some fn =>
    cases hln : lookupForm form "last_name" with
    | none => exact ⟨"last_name", hln, by simp [submit_contact, hfn, hln]⟩
    | some ln =>
      cases hem : lookupForm form "email" with
      | none => exact ⟨"email", hem, by simp [submit_contact, hfn, hln, hem]⟩
      | some em =>
        rcases h with h | h | h
        · rw [hfn] at h; exact absurd h (by simp)
        · rw [hln] at h; exact absurd h (by simp)
        · rw [hem] at h; exact absurd h (by simp)

/-- A form on which the first_name key is absent altogether. -/
def c1wForm : Form := [("last_name", "Lovelace"), ("email", "ada@example.com")]

/-- C1 amended, witness: concrete form with first_name absent. -/
theorem submit_contact_missing_required_key_witness :
    lookupForm c1wForm "first_name" = none ∧
    ((∃ k, lookupForm c1wForm k = none ∧
        submit_contact c1wForm = ⟨.httpError 400 k, [], []⟩) ∧
     (submit_contact c1Form).result.status = 200) :=
  ⟨by decide, submit_contact_missing_required_key c1wForm (Or.inl (by decide))⟩

/-- The concrete success scenario of the spec. -/
def adaForm : Form :=
  [("first_name", "Ada"), ("last_name", "Lovelace"),
   ("email", "ada@example.com"), ("message", "hello")]

/-- C2 counterexample: on the spec's concrete success scenario the
handler does return the success payload with status 200, but it passes
zero submissions to Storage.Put, not exactly one. -/
theorem submit_contact_put_never_invoked :
    (submit_contact adaForm).result =
      .ok { status := 200, body := successBody, headers := [] } ∧
    (submit_contact adaForm).stored.length = 0 := by decide

/-- C2 amended: with all four keys present (message included) and the
required values non-empty, the handler returns the success payload with
status 200 and prints the submission to the console, and Storage.Put is
invoked zero times, not once. -/
theorem submit_contact_success_prints_no_put (form : Form) (fn ln em msg : String)
    (hfn : lookupForm form "first_name" = some fn)
    (hln : lookupForm form "last_name" = some ln)
    (hem : lookupForm form "email" = some em)
    (hmsg : lookupForm form "message" = some msg)
    (hfne : fn ≠ "") (hlne : ln ≠ "") (heme : em ≠ "") :
    submit_contact form =
      ⟨.ok { status := 200, body := successBody, headers := [] },
       [s!"Received contact form: {fn} {ln}, {em}, {msg}"], []⟩ := by
  simp [submit_contact, hfn, hln, hem, hmsg]

/-- C2 amended, witness: the concrete success scenario evaluated. -/
theorem submit_contact_success_prints_no_put_witness :
    lookupForm adaForm "first_name" = some "Ada" ∧
    submit_contact adaForm =
      ⟨.ok { status := 200, body := successBody, headers := [] },
       ["Received contact form: Ada Lovelace, ada@example.com, hello"], []⟩ :=
  ⟨by decide,
   by rw [submit_contact_success_prints_no_put adaForm "Ada" "Lovelace" "ada@example.com"
        "hello" (by decide) (by decide) (by decide) (by decide) (by decide) (by decide)
        (by decide)]; decide⟩

/-- A form whose required values are empty or malformed yet whose four
keys are all present. -/
def c3Form : Form :=
  [("first_name", ""), ("last_name", ""), ("email", "no-at-sign"), ("message", "")]

/-- C3 counterexample: a submission with empty first_name and last_name
and an email with no '@' at all (hence no domain part) is accepted with
status 200, violating the stated invariant. -/
theorem submit_contact_accepts_invalid_submission :
    (submit_contact c3Form).result.status = 200 ∧
    lookupForm c3Form "first_name" = some "" ∧
    lookupForm c3Form "email" = some "no-at-sign" ∧
    emailDomain "no-at-sign" = none := by decide

/-- C3 amended: a submission is accepted (status 200) exactly when the
four keys first_name, last_name, email and message are all present in
the form; no non-emptiness or email-domain condition is checked. -/
theorem submit_contact_accepted_iff_keys_present (form : Form) :
    (submit_contact form).result.status = 200 ↔
      ((lookupForm form "first_name").isSome ∧ (lookupForm form "last_name").isSome ∧
       (lookupForm form "email").isSome ∧ (lookupForm form "message").isSome) := by
  cases hfn : lookupForm form "first_name" <;>
  cases hln : lookupForm form "last_name" <;>
  cases hem : lookupForm form "email" <;>
  cases hmsg : lookupForm form "message" <;>
  simp [submit_contact, hfn, hln, hem, hmsg, RouteResult.status]

/-- C8: even with first_name, last_name and email present and non-empty,
a form without the message key makes the handler raise the 400 key
error for message — nothing is printed or stored and no success is
returned, so message is effectively required. -/
theorem submit_contact_message_key_required (form : Form) (fn ln em : String)
    (hfn : lookupForm form "first_name" = some fn)
    (hln : lookupForm form "last_name" = some ln)
    (hem : lookupForm form "email" = some em)
    (hfne : fn ≠ "") (hlne : ln ≠ "") (heme : em ≠ "")
    (hmsg : lookupForm form "message" = none) :
    submit_contact form = ⟨.httpError 400 "message", [], []⟩ := by
  simp [submit_contact, hfn, hln, hem, hmsg]

/-- A complete, well-formed submission that merely omits message. -/
def c8Form : Form :=
  [("first_name", "Ada"), ("last_name", "Lovelace"), ("email", "ada@example.com")]

/-- C8 witness: the message-less form evaluated. -/
theorem submit_contact_message_key_required_witness :
    lookupForm c8Form "message" = none ∧
    submit_contact c8Form = ⟨.httpError 400 "message", [], []⟩ :=
  ⟨by decide,
   submit_contact_message_key_required c8Form "Ada" "Lovelace" "ada@example.com"
     (by decide) (by decide) (by decide) (by decide) (by decide) (by decide) (by decide)⟩

/-- A storage collaborator whose failure message echoes the rejected
item, as DynamoDB validation failures do. -/
def putEcho (item : DynamoItem) : Except String Unit :=
  .error ("One or more parameter values were invalid: " ++ item.email)

/-- First valid submission used against the failing storage stub. -/
def c7FormA : Form :=
  [("first_name", "Ada"), ("last_name", "Lovelace"), ("email", "ada@example.com")]

/-- Second valid submission used against the failing storage stub. -/
def c7FormB : Form :=
  [("first_name", "Alan"), ("last_name", "Turing"), ("email", "alan@turing.org")]

/-- C7 counterexample: two submissions whose Storage.Put call fails both
get a 500 server error, but their error bodies differ — the message is
str(e) of the storage failure, not a constant independent of the
submission content. -/
theorem submit_contact_v1_error_message_varies :
    (submit_contact_v1 c7FormA putEcho).status = 500 ∧
    (submit_contact_v1 c7FormB putEcho).status = 500 ∧
    (submit_contact_v1 c7FormA putEcho).body ≠ (submit_contact_v1 c7FormB putEcho).body := by
  decide

/-- C7 amended: whenever the submission passes validation and
Storage.Put fails with message e, the handler returns status 500 — the
status is the same across all failing runs — with JSON body carrying
the error field str(e), which varies with the storage exception and so
can depend on submission content. -/
theorem submit_contact_v1_storage_error (form : Form)
    (put : DynamoItem → Except String Unit) (e : String)
    (hfn : falsy (lookupForm form "first_name") = false)
    (hln : falsy (lookupForm form "last_name") = false)
    (hem : falsy (lookupForm form "email") = false)
    (hput : put (v1Item form) = .error e) :
    submit_contact_v1 form put =
      { status := 500, body := .json [("error", e)], headers := [] } := by
  simp [submit_contact_v1, hfn, hln, hem, hput]

/-- C7 amended, witness: the echoing storage stub on a concrete form. -/
theorem submit_contact_v1_storage_error_witness :
    putEcho (v1Item c7FormA) =
      .error "One or more parameter values were invalid: ada@example.com" ∧
    submit_contact_v1 c7FormA putEcho =
      { status := 500,
        body := .json [("error", "One or more parameter values were invalid: ada@example.com")],
        headers := [] } :=
  ⟨rfl,
   submit_contact_v1_storage_error c7FormA putEcho
     "One or more parameter values were invalid: ada@example.com"
     (by decide) (by decide) (by decide) rfl⟩

/-- Splitting a list that holds no separator yields the single piece
made of the accumulator followed by the rest. -/
theorem pySplitAux_no_sep (sep : Char) (l : List Char) :
    ∀ acc : List Char, sep ∉ l → pySplitAux sep l acc = [acc.reverse ++ l] := by
  induction l with
  | nil => intro acc _; simp [pySplitAux]
  | cons c cs ih =>
    intro acc h
    have hc : ¬ c = sep := fun hc => h (by simp [hc])
    have hcs : sep ∉ cs := fun hm => h (by simp [hm])
    simp [pySplitAux, hc, ih (c :: acc) hcs]

/-- C4: the pre-signup hook rejects with the raised domain error exactly
when the email's domain — the piece after the first '@' — is outside
the fixed allow-list, and otherwise lets the sign-up continue by
returning the event; concretely, user at example.com is allowed and
user at other.org is not. -/
theorem lambda_handler_allowlist (event : CognitoEvent) (d : String)
    (h : emailDomain event.email = some d) :
    ((∃ msg, lambda_handler event = .domainRejected msg) ↔ d ∉ allowed_domains) ∧
    (lambda_handler event = .ok event ↔ d ∈ allowed_domains) ∧
    IsAllowedDomain "user@example.com" = true ∧
    IsAllowedDomain "user@other.org" = false := by
  refine ⟨?_, ?_, by decide, by decide⟩ <;>
  · unfold lambda_handler
    rw [h]
    by_cases hd : d ∈ allowed_domains <;> simp [hd]

/-- C4 witness: a concrete allow-listed event evaluated. -/
theorem lambda_handler_allowlist_witness :
    emailDomain "user@example.com" = some "example.com" ∧
    (((∃ msg, lambda_handler ⟨"user@example.com", [], []⟩ = .domainRejected msg) ↔
        "example.com" ∉ allowed_domains) ∧
     (lambda_handler ⟨"user@example.com", [], []⟩ = .ok ⟨"user@example.com", [], []⟩ ↔
        "example.com" ∈ allowed_domains) ∧
     IsAllowedDomain "user@example.com" = true ∧
     IsAllowedDomain "user@other.org" = false) :=
  ⟨by decide, lambda_handler_allowlist ⟨"user@example.com", [], []⟩ "example.com" (by decide)⟩

/-- C9: on any event whose email holds no '@' character, the handler
raises the IndexError from email.split('@')[1] before the allow-list is
consulted, so neither the allow outcome nor the domain rejection is
reached. -/
theorem lambda_handler_no_at_index_error (event : CognitoEvent)
    (h : '@' ∉ event.email.toList) :
    lambda_handler event = .indexError "list index out of range" := by
  unfold lambda_handler emailDomain pySplit
  rw [pySplitAux_no_sep '@' event.email.toList [] h]
  simp [List.get?]

/-- C9 witness: an email with no at-sign evaluated. -/
theorem lambda_handler_no_at_index_error_witness :
    '@' ∉ ("adaexample.com" : String).toList ∧
    lambda_handler ⟨"adaexample.com", [("given_name", "Ada")], []⟩ =
      .indexError "list index out of range" :=
  ⟨by decide,
   lambda_handler_no_at_index_error ⟨"adaexample.com", [("given_name", "Ada")], []⟩
     (by decide)⟩

/-- C10: when the email's domain is allow-listed, the handler returns
the very event it was given — no attribute added, removed or changed. -/
theorem lambda_handler_allowed_event_unchanged (event : CognitoEvent) (d : String)
    (h : emailDomain event.email = some d) (hd : d ∈ allowed_domains) :
    lambda_handler event = .ok event := by
  unfold lambda_handler
  rw [h]
  simp [hd]

/-- C10 witness: a concrete event with extra attributes comes back
whole. -/
theorem lambda_handler_allowed_event_unchanged_witness :
    emailDomain "ada@connectingthedots.com" = some "connectingthedots.com" ∧
    lambda_handler
        ⟨"ada@connectingthedots.com", [("given_name", "Ada")],
         [("triggerSource", "PreSignUp_SignUp")]⟩ =
      .ok ⟨"ada@connectingthedots.com", [("given_name", "Ada")],
           [("triggerSource", "PreSignUp_SignUp")]⟩ :=
  ⟨by decide,
   lambda_handler_allowed_event_unchanged
     ⟨"ada@connectingthedots.com", [("given_name", "Ada")],
      [("triggerSource", "PreSignUp_SignUp")]⟩
     "connectingthedots.com" (by decide) (by decide)⟩
